import Mathlib

/-!
# ESP32-C6 MQTT gateway: connectivity and session supervisor

A shallow embedding of `main/mqtt_gateway.c`, `main/mqtt_gateway.h` and
`main/main.c`.  Module-level globals become an explicit record, every call to
a collaborator (MQTT client, mDNS, WiFi manager, FreeRTOS, logging) is
appended to a call log, and the values collaborators hand back are inputs.
C strings are lists of characters (the bytes before the terminating NUL).
-/

namespace Gateway

/-! ## Collaborator constants -/

/-- Error code type of ESP-IDF (a C int). -/
abbrev esp_err_t := Int

def ESP_OK : esp_err_t := 0
def ESP_FAIL : esp_err_t := -1
def ESP_ERR_INVALID_ARG : esp_err_t := 0x102

/-- A client handle: none is the NULL pointer. -/
abbrev esp_mqtt_client_handle_t := Option Nat

def MQTT_EVENT_ERROR : Int := 0
def MQTT_EVENT_CONNECTED : Int := 1
def MQTT_EVENT_DISCONNECTED : Int := 2
def MQTT_EVENT_SUBSCRIBED : Int := 3
def MQTT_EVENT_UNSUBSCRIBED : Int := 4
def MQTT_EVENT_PUBLISHED : Int := 5
def MQTT_EVENT_DATA : Int := 6

def MQTT_ERROR_TYPE_TCP_TRANSPORT : Int := 1

/-! ## The C library pieces the gateway uses -/

/-- The NUL byte. -/
def NUL : Char := Char.ofNat 0

/-- C strncmp: compares at most n bytes and stops after an equal NUL.  Reading
past the end of a list reads the terminating NUL. -/
def strncmp : List Char → List Char → Nat → Int
  | _, _, 0 => 0
  | s1, s2, n + 1 =>
    let c1 := s1.headD NUL
    let c2 := s2.headD NUL
    if c1 ≠ c2 then (c1.toNat : Int) - (c2.toNat : Int)
    else if c1 = NUL then 0
    else strncmp s1.tail s2.tail n

/-- An argument of a printf-style call. -/
inductive PrintfArg
  | str (s : List Char)
  | int (d : Int)
  deriving DecidableEq, Repr

/-- Conversion %d of a C int. -/
def fmt_d : Int → List Char
  | Int.ofNat n => Nat.toDigits 10 n
  | Int.negSucc n => '-' :: Nat.toDigits 10 (n + 1)

/-- Expansion of a printf format with the conversions %s and %d. -/
def vformat : List Char → List PrintfArg → List Char
  | [], _ => []
  | [c], _ => [c]
  | c :: d :: rest, args =>
    if c = '%' ∧ d = 's' then
      match args with
      | PrintfArg.str s :: more => s ++ vformat rest more
      | _ => vformat rest args
    else if c = '%' ∧ d = 'd' then
      match args with
      | PrintfArg.int i :: more => fmt_d i ++ vformat rest more
      | _ => vformat rest args
    else c :: vformat (d :: rest) args

/-- C snprintf into a buffer of `size` bytes: the buffer receives at most
`size - 1` characters of the expansion (then the NUL). -/
def snprintf (size : Nat) (fmt : List Char) (args : List PrintfArg) : List Char :=
  (vformat fmt args).take (size - 1)

/-- Byte `i` of a 32-bit address as it lies in memory (little endian). -/
def ip4_addr_get_byte (addr : Nat) (i : Nat) : Nat := (addr / 256 ^ i) % 256

/-- Dotted-decimal rendering of an IPv4 address (esp_ip4addr_ntoa). -/
def esp_ip4addr_ntoa (addr : Nat) : List Char :=
  Nat.toDigits 10 (ip4_addr_get_byte addr 0) ++ ('.' ::
  (Nat.toDigits 10 (ip4_addr_get_byte addr 1) ++ ('.' ::
  (Nat.toDigits 10 (ip4_addr_get_byte addr 2) ++ ('.' ::
  Nat.toDigits 10 (ip4_addr_get_byte addr 3))))))

/-! ## Data model (mqtt_gateway.h) -/

/-- The status structure of mqtt_gateway.h; ip_address is the string held by
the 16-byte array. -/
structure gateway_status_t where
  wifi_connected : Bool
  mqtt_running : Bool
  mdns_running : Bool
  mqtt_client_count : Int
  ip_address : List Char
  deriving DecidableEq, Repr

/-- What memset(status, 0, sizeof ...) leaves. -/
def gateway_status_t.zero : gateway_status_t :=
  ⟨false, false, false, 0, []⟩

/-- The values the C type can hold: at most 15 characters before the NUL of a
16-byte array, and a 32-bit signed count. -/
def gateway_status_t.representable (s : gateway_status_t) : Prop :=
  s.ip_address.length ≤ 15 ∧
  -(2147483648 : Int) ≤ s.mqtt_client_count ∧ s.mqtt_client_count ≤ 2147483647

instance (s : gateway_status_t) : Decidable s.representable := by
  unfold gateway_status_t.representable; infer_instance

/-- The static variables of mqtt_gateway.c. -/
structure Globals where
  mqtt_client : esp_mqtt_client_handle_t
  mqtt_connected : Bool
  mqtt_running : Bool
  mqtt_client_count : Int
  mdns_initialized : Bool
  deriving DecidableEq, Repr

/-- The initializers of the static variables. -/
def Globals.boot : Globals := ⟨none, false, false, 0, false⟩

/-- Modelled from the spec: the Link Watcher (wifi_manager_is_connected and
the network interface behind it) is declared in mqtt_gateway.h and implemented
outside the given sources.  Its observable answers at the time of a call:
whether the link is connected, the handle esp_netif_get_handle_from_ifkey
returns, and the result of esp_netif_get_ip_info. -/
structure NetEnv where
  wifi_connected : Bool
  netif : Option Nat
  ip_info_ret : esp_err_t
  ip : Nat
  deriving DecidableEq, Repr

/-- One call made to a collaborator, in program order. -/
inductive Call
  | esp_log (level : Char) (fmt : String) (args : List PrintfArg)
  | printf (fmt : String) (args : List PrintfArg)
  | esp_mqtt_client_init (uri : String)
  | esp_mqtt_client_register_event (client : esp_mqtt_client_handle_t)
  | esp_mqtt_client_start (client : esp_mqtt_client_handle_t)
  | esp_mqtt_client_stop (client : esp_mqtt_client_handle_t)
  | esp_mqtt_client_destroy (client : esp_mqtt_client_handle_t)
  | esp_mqtt_client_subscribe (client : esp_mqtt_client_handle_t) (topic : String) (qos : Int)
  | esp_mqtt_client_publish (client : esp_mqtt_client_handle_t) (topic : String)
      (data : List Char) (len qos retain : Int)
  | mdns_init
  | mdns_hostname_set (name : String)
  | mdns_instance_name_set (name : String)
  | mdns_service_add (instance_name service proto : String) (port : Nat)
  | mdns_free
  | wifi_manager_init
  | wifi_manager_start
  | wifi_manager_is_connected
  | vTaskDelay (ms : Nat)
  | xTaskCreate (name : String)
  | mdns_service_init
  | mqtt_gateway_init
  | mqtt_gateway_start
  deriving DecidableEq, Repr

/-- The fields of an MQTT event the handler reads. -/
structure esp_mqtt_event_t where
  event_id : Int
  client : esp_mqtt_client_handle_t
  msg_id : Int
  topic : List Char
  data : List Char
  error_type : Int
  sock_errno : Int
  deriving DecidableEq, Repr

/-! ## mqtt_gateway.c -/

def mqtt_gateway_is_running (g : Globals) : Bool :=
  g.mqtt_running && g.mqtt_connected

def mqtt_gateway_get_client_count (g : Globals) : Int :=
  g.mqtt_client_count

/-- The function gateway_get_status: `status` is the destination pointer (none
is NULL, some old is a pointer to a structure holding old). -/
def gateway_get_status (net : NetEnv) (g : Globals) (status : Option gateway_status_t) :
    esp_err_t × Option gateway_status_t :=
  match status with
  | none => (ESP_ERR_INVALID_ARG, none)
  | some _ =>
    let s0 := gateway_status_t.zero
    let s1 := { s0 with wifi_connected := net.wifi_connected }
    let s2 := { s1 with mqtt_running := mqtt_gateway_is_running g }
    let s3 := { s2 with mdns_running := g.mdns_initialized }
    let s4 := { s3 with mqtt_client_count := mqtt_gateway_get_client_count g }
    let s5 :=
      if s4.wifi_connected then
        match net.netif with
        | some _ =>
          if net.ip_info_ret = ESP_OK then { s4 with ip_address := esp_ip4addr_ntoa net.ip }
          else s4
        | none => s4
      else s4
    (ESP_OK, some s5)

/-- The format of the status reply. -/
def status_fmt : String :=
  "\x7b\"wifi_connected\":%s,\"mqtt_running\":%s,\"ip\":\"%s\",\"clients\":%d\x7d"

/-- The arguments of the snprintf call of the MQTT_EVENT_DATA branch. -/
def status_args (status : gateway_status_t) : List PrintfArg :=
  [PrintfArg.str (if status.wifi_connected then "true".toList else "false".toList),
   PrintfArg.str (if status.mqtt_running then "true".toList else "false".toList),
   PrintfArg.str status.ip_address,
   PrintfArg.int status.mqtt_client_count]

/-- The snprintf call of the MQTT_EVENT_DATA branch: the contents of
status_msg[256]. -/
def status_msg (status : gateway_status_t) : List Char :=
  snprintf 256 status_fmt.toList (status_args status)

/-- The values the MQTT client hands back during one handler run: the message
ids of the two subscribe calls. -/
structure SubscribeRet where
  first : Int
  second : Int
  deriving DecidableEq, Repr

/-- The function mqtt_event_handler. -/
def mqtt_event_handler (net : NetEnv) (ret : SubscribeRet) (g : Globals)
    (base : String) (event : esp_mqtt_event_t) : Globals × List Call :=
  let client := event.client
  let log0 := [Call.esp_log 'D' "Event dispatched from event loop base=%s, event_id=%d"
    [PrintfArg.str base.toList, PrintfArg.int event.event_id]]
  if event.event_id = MQTT_EVENT_CONNECTED then
    ({ g with mqtt_connected := true },
     log0 ++
     [Call.esp_log 'I' "MQTT_EVENT_CONNECTED" [],
      Call.esp_mqtt_client_subscribe client "/test/topic" 0,
      Call.esp_log 'I' "sent subscribe successful, msg_id=%d" [PrintfArg.int ret.first],
      Call.esp_mqtt_client_subscribe client "/gateway/status" 0,
      Call.esp_log 'I' "subscribed to gateway status topic, msg_id=%d" [PrintfArg.int ret.second]])
  else if event.event_id = MQTT_EVENT_DISCONNECTED then
    ({ g with mqtt_connected := false },
     log0 ++ [Call.esp_log 'I' "MQTT_EVENT_DISCONNECTED" []])
  else if event.event_id = MQTT_EVENT_SUBSCRIBED then
    (g, log0 ++ [Call.esp_log 'I' "MQTT_EVENT_SUBSCRIBED, msg_id=%d" [PrintfArg.int event.msg_id]])
  else if event.event_id = MQTT_EVENT_UNSUBSCRIBED then
    (g, log0 ++ [Call.esp_log 'I' "MQTT_EVENT_UNSUBSCRIBED, msg_id=%d" [PrintfArg.int event.msg_id]])
  else if event.event_id = MQTT_EVENT_PUBLISHED then
    (g, log0 ++ [Call.esp_log 'I' "MQTT_EVENT_PUBLISHED, msg_id=%d" [PrintfArg.int event.msg_id]])
  else if event.event_id = MQTT_EVENT_DATA then
    let log1 := log0 ++
      [Call.esp_log 'I' "MQTT_EVENT_DATA" [],
       Call.printf "TOPIC=%.*s\r\n" [PrintfArg.int event.topic.length, PrintfArg.str event.topic],
       Call.printf "DATA=%.*s\r\n" [PrintfArg.int event.data.length, PrintfArg.str event.data]]
    if strncmp event.topic "/gateway/status".toList event.topic.length = 0 then
      match gateway_get_status net g (some gateway_status_t.zero) with
      | (r, some status) =>
        if r = ESP_OK then
          (g, log1 ++ [Call.esp_mqtt_client_publish client "/gateway/status/response"
            (status_msg status) 0 0 0])
        else (g, log1)
      | (_, none) => (g, log1)
    else (g, log1)
  else if event.event_id = MQTT_EVENT_ERROR then
    let log1 := log0 ++ [Call.esp_log 'I' "MQTT_EVENT_ERROR" []]
    if event.error_type = MQTT_ERROR_TYPE_TCP_TRANSPORT then
      (g, log1 ++ [Call.esp_log 'E' "Last errno string (%s)" [PrintfArg.int event.sock_errno]])
    else (g, log1)
  else
    (g, log0 ++ [Call.esp_log 'I' "Other event id:%d" [PrintfArg.int event.event_id]])

/-- The function mqtt_gateway_init; `handle` is what esp_mqtt_client_init
returns. -/
def mqtt_gateway_init (g : Globals) (handle : esp_mqtt_client_handle_t) :
    esp_err_t × Globals × List Call :=
  let log0 := [Call.esp_log 'I' "Initializing MQTT Gateway" [],
    Call.esp_mqtt_client_init "mqtt://localhost:1883"]
  let g1 := { g with mqtt_client := handle }
  if g1.mqtt_client = none then
    (ESP_FAIL, g1, log0 ++ [Call.esp_log 'E' "Failed to initialize MQTT client" []])
  else
    (ESP_OK, g1, log0 ++ [Call.esp_mqtt_client_register_event g1.mqtt_client,
      Call.esp_log 'I' "MQTT Gateway initialized" []])

/-- The function mqtt_gateway_start; `start_ret` is what esp_mqtt_client_start
returns when it is called. -/
def mqtt_gateway_start (g : Globals) (start_ret : esp_err_t) :
    esp_err_t × Globals × List Call :=
  let log0 := [Call.esp_log 'I' "Starting MQTT Gateway" []]
  if g.mqtt_client = none then
    (ESP_FAIL, g, log0 ++ [Call.esp_log 'E' "MQTT client not initialized" []])
  else
    let log1 := log0 ++ [Call.esp_mqtt_client_start g.mqtt_client]
    let ret := start_ret
    if ret ≠ ESP_OK then
      (ret, g, log1 ++ [Call.esp_log 'E' "Failed to start MQTT client" []])
    else
      (ESP_OK, { g with mqtt_running := true },
       log1 ++ [Call.esp_log 'I' "MQTT Gateway started" []])

/-- The function mqtt_gateway_stop. -/
def mqtt_gateway_stop (g : Globals) : esp_err_t × Globals × List Call :=
  let log0 := [Call.esp_log 'I' "Stopping MQTT Gateway" []]
  let (g1, log1) :=
    if g.mqtt_client ≠ none then
      ({ g with mqtt_client := none },
       log0 ++ [Call.esp_mqtt_client_stop g.mqtt_client,
         Call.esp_mqtt_client_destroy g.mqtt_client])
    else (g, log0)
  let g2 := { g1 with mqtt_running := false }
  let g3 := { g2 with mqtt_connected := false }
  (ESP_OK, g3, log1 ++ [Call.esp_log 'I' "MQTT Gateway stopped" []])

/-- The function mdns_service_init; `err` is what mdns_init returns. -/
def mdns_service_init (g : Globals) (err : esp_err_t) : esp_err_t × Globals × List Call :=
  let log0 := [Call.esp_log 'I' "Initializing mDNS service" [], Call.mdns_init]
  if err ≠ ESP_OK then
    (err, g, log0 ++ [Call.esp_log 'E' "Failed to initialize mDNS: %s" [PrintfArg.int err]])
  else
    (ESP_OK, { g with mdns_initialized := true },
     log0 ++
     [Call.mdns_hostname_set "esp32c6-gateway",
      Call.mdns_instance_name_set "ESP32-C6 MQTT Gateway",
      Call.mdns_service_add "ESP32-C6-Gateway" "_mqtt" "_tcp" 1883,
      Call.mdns_service_add "ESP32-C6-Gateway-Web" "_http" "_tcp" 80,
      Call.esp_log 'I' "mDNS service initialized" []])

/-- The function mdns_service_stop. -/
def mdns_service_stop (g : Globals) : esp_err_t × Globals × List Call :=
  if g.mdns_initialized then
    (ESP_OK, { g with mdns_initialized := false },
     [Call.mdns_free, Call.esp_log 'I' "mDNS service stopped" []])
  else (ESP_OK, g, [])

/-! ## Interleavings of link notifications, gateway calls and MQTT events -/

/-- The gateway globals together with what the network side currently
answers. -/
structure World where
  g : Globals
  net : NetEnv
  deriving DecidableEq, Repr

/-- Process start: the static initializers, and the link not yet connected
(the Link Watcher starts in its Disconnected state). -/
def World.boot : World := ⟨Globals.boot, ⟨false, none, ESP_FAIL, 0⟩⟩

/-- One atomic step of the system. -/
inductive Action
  | link_up (netif : Option Nat) (ip_info_ret : esp_err_t) (ip : Nat)
  | link_down
  | init (handle : esp_mqtt_client_handle_t)
  | start (start_ret : esp_err_t)
  | stop
  | mdns_start (err : esp_err_t)
  | mdns_stop
  | event (ret : SubscribeRet) (base : String) (e : esp_mqtt_event_t)
  deriving DecidableEq, Repr

/-- What one step leaves: the new world, the value returned to the caller (if
the step is a call that returns one) and the collaborator calls made. -/
structure StepResult where
  world : World
  ret : Option esp_err_t
  calls : List Call

/-- The effect of one step: a link notification changes what the network side
answers, a call runs the gateway function, an event runs the handler. -/
def step (w : World) : Action → StepResult
  | Action.link_up netif r ip => ⟨{ w with net := ⟨true, netif, r, ip⟩ }, none, []⟩
  | Action.link_down => ⟨{ w with net := { w.net with wifi_connected := false } }, none, []⟩
  | Action.init handle =>
    let r := mqtt_gateway_init w.g handle
    ⟨{ w with g := r.2.1 }, some r.1, r.2.2⟩
  | Action.start start_ret =>
    let r := mqtt_gateway_start w.g start_ret
    ⟨{ w with g := r.2.1 }, some r.1, r.2.2⟩
  | Action.stop =>
    let r := mqtt_gateway_stop w.g
    ⟨{ w with g := r.2.1 }, some r.1, r.2.2⟩
  | Action.mdns_start err =>
    let r := mdns_service_init w.g err
    ⟨{ w with g := r.2.1 }, some r.1, r.2.2⟩
  | Action.mdns_stop =>
    let r := mdns_service_stop w.g
    ⟨{ w with g := r.2.1 }, some r.1, r.2.2⟩
  | Action.event ret base e =>
    let r := mqtt_event_handler w.net ret w.g base e
    ⟨{ w with g := r.1 }, none, r.2⟩

/-- The world after a chronological list of steps. -/
def after (w : World) : List Action → World
  | [] => w
  | a :: rest => after (step w a).world rest

/-- One entry of the history: the step and the value it returned. -/
structure Obs where
  action : Action
  ret : Option esp_err_t
  deriving DecidableEq, Repr

/-- The chronological history of a run. -/
def history (w : World) : List Action → List Obs
  | [] => []
  | a :: rest => ⟨a, (step w a).ret⟩ :: history (step w a).world rest

/-- The snapshot gateway_get_status writes through a non-null pointer in a
world. -/
def snapshot (w : World) : gateway_status_t :=
  (gateway_get_status w.net w.g (some gateway_status_t.zero)).2.getD gateway_status_t.zero

/-! ## main.c -/

/-- What the collaborators hand back to app_main: return codes, the client
handle, and the answer of the k-th call of wifi_manager_is_connected (counted
from 0). -/
structure MainEnv where
  wifi_init_ret : esp_err_t
  wifi_start_ret : esp_err_t
  is_connected : Nat → Bool
  mdns_init_ret : esp_err_t
  mqtt_handle : esp_mqtt_client_handle_t
  mqtt_start_ret : esp_err_t
  free_heap : Int

/-- The state app_main threads: the gateway globals and the calls so far. -/
structure MainState where
  g : Globals
  calls : List Call
  deriving DecidableEq, Repr

/-- How a run of app_main ends: it returned, or it is still in the final
monitoring loop after the simulated number of ticks. -/
inductive Outcome
  | returned
  | monitoring
  deriving DecidableEq, Repr

/-- Number of polls of the link made so far. -/
def MainState.polls (st : MainState) : Nat :=
  st.calls.count Call.wifi_manager_is_connected

def MainState.emit (st : MainState) (cs : List Call) : MainState :=
  { st with calls := st.calls ++ cs }

/-- One call of wifi_manager_is_connected from app_main. -/
def poll (env : MainEnv) (st : MainState) : Bool × MainState :=
  (env.is_connected st.polls, st.emit [Call.wifi_manager_is_connected])

/-- The loop `while (!wifi_manager_is_connected() && retry_count < 20)`; fuel
bounds the number of evaluations of the condition, none means it ran out. -/
def wait_for_wifi (env : MainEnv) : Nat → Int → MainState → Option (Int × MainState)
  | 0, _, _ => none
  | fuel + 1, retry_count, st =>
    let (c, st1) := poll env st
    if !c && decide (retry_count < 20) then
      let st2 := st1.emit
        [Call.esp_log 'I' "Waiting for WiFi connection... (%d/20)" [PrintfArg.int (retry_count + 1)],
         Call.vTaskDelay 1000]
      wait_for_wifi env fuel (retry_count + 1) st2
    else some (retry_count, st1)

/-- The final `while (1)` loop of app_main, run for the given number of
iterations. -/
def monitor_loop (env : MainEnv) : Nat → MainState → MainState
  | 0, st => st
  | n + 1, st =>
    let st1 := st.emit [Call.vTaskDelay 1000]
    let (c, st2) := poll env st1
    if !c then
      monitor_loop env n (st2.emit
        [Call.esp_log 'W' "WiFi connection lost, attempting to reconnect..." [],
         Call.wifi_manager_start])
    else monitor_loop env n st2

/-- The function app_main, with the final loop run for `ticks` iterations. -/
def app_main (env : MainEnv) (ticks : Nat) : Option (Outcome × MainState) :=
  let st0 : MainState := ⟨Globals.boot, []⟩
  let st1 := st0.emit
    [Call.esp_log 'I' "ESP32-C6 MQTT Gateway starting..." [],
     Call.esp_log 'I' "Free heap: %d bytes" [PrintfArg.int env.free_heap],
     Call.esp_log 'I' "Initializing WiFi Manager..." [],
     Call.wifi_manager_init]
  if env.wifi_init_ret ≠ ESP_OK then
    some (Outcome.returned, st1.emit
      [Call.esp_log 'E' "Failed to initialize WiFi Manager: %s" [PrintfArg.int env.wifi_init_ret]])
  else
  let st2 := st1.emit
    [Call.esp_log 'I' "Starting WiFi connection..." [], Call.wifi_manager_start]
  if env.wifi_start_ret ≠ ESP_OK then
    some (Outcome.returned, st2.emit
      [Call.esp_log 'E' "Failed to start WiFi: %s" [PrintfArg.int env.wifi_start_ret]])
  else
  match wait_for_wifi env 21 0 st2 with
  | none => none
  | some (_, st3) =>
  let (c, st4) := poll env st3
  if !c then
    some (Outcome.returned, st4.emit
      [Call.esp_log 'E' "Failed to connect to WiFi after 20 seconds" []])
  else
  let st5 := st4.emit
    [Call.esp_log 'I' "WiFi connected successfully!" [],
     Call.esp_log 'I' "Initializing mDNS service..." [],
     Call.mdns_service_init]
  let r1 := mdns_service_init st5.g env.mdns_init_ret
  let st6 : MainState := ⟨r1.2.1, st5.calls ++ r1.2.2⟩
  let st7 :=
    if r1.1 ≠ ESP_OK then
      st6.emit [Call.esp_log 'W' "Failed to initialize mDNS: %s" [PrintfArg.int r1.1]]
    else st6
  let st8 := st7.emit
    [Call.esp_log 'I' "Initializing MQTT Gateway..." [], Call.mqtt_gateway_init]
  let r2 := mqtt_gateway_init st8.g env.mqtt_handle
  let st9 : MainState := ⟨r2.2.1, st8.calls ++ r2.2.2⟩
  if r2.1 ≠ ESP_OK then
    some (Outcome.returned, st9.emit
      [Call.esp_log 'E' "Failed to initialize MQTT Gateway: %s" [PrintfArg.int r2.1]])
  else
  let st10 := st9.emit
    [Call.esp_log 'I' "Starting MQTT Gateway..." [], Call.mqtt_gateway_start]
  let r3 := mqtt_gateway_start st10.g env.mqtt_start_ret
  let st11 : MainState := ⟨r3.2.1, st10.calls ++ r3.2.2⟩
  if r3.1 ≠ ESP_OK then
    some (Outcome.returned, st11.emit
      [Call.esp_log 'E' "Failed to start MQTT Gateway: %s" [PrintfArg.int r3.1]])
  else
  let st12 := st11.emit
    [Call.esp_log 'I' "ESP32-C6 MQTT Gateway initialized successfully!" [],
     Call.esp_log 'I' "Services running:" [],
     Call.esp_log 'I' "  - WiFi Station Mode" [],
     Call.esp_log 'I' "  - MQTT Client/Gateway" [],
     Call.esp_log 'I' "  - mDNS Service Discovery" [],
     Call.esp_log 'I' "" [],
     Call.esp_log 'I' "Gateway will bridge MQTT messages and provide status information." [],
     Call.esp_log 'I' "Subscribe to \x27/gateway/status\x27 to get gateway status." [],
     Call.esp_log 'I' "Publish to \x27/test/topic\x27 to test message routing." [],
     Call.xTaskCreate "status_monitor"]
  some (Outcome.monitoring, monitor_loop env ticks st12)

/-! ## Observations on call logs -/

def isSubscribe : Call → Bool
  | Call.esp_mqtt_client_subscribe _ _ _ => true
  | _ => false

def isPublish : Call → Bool
  | Call.esp_mqtt_client_publish _ _ _ _ _ _ => true
  | _ => false

/-- Calls that stop or destroy the underlying client. -/
def isTeardown : Call → Bool
  | Call.esp_mqtt_client_stop _ => true
  | Call.esp_mqtt_client_destroy _ => true
  | _ => false

/-- The topic of the status query. -/
def status_topic : List Char := "/gateway/status".toList

/-- An MQTT_EVENT_DATA event. -/
def data_event (client : esp_mqtt_client_handle_t) (topic data : List Char) : esp_mqtt_event_t :=
  ⟨MQTT_EVENT_DATA, client, 0, topic, data, 0, 0⟩

/-- An event that carries only its id. -/
def plain_event (id : Int) (client : esp_mqtt_client_handle_t) : esp_mqtt_event_t :=
  ⟨id, client, 0, [], [], 0, 0⟩

/-- Polls of the link and delays. -/
def isPollOrDelay : Call → Bool
  | Call.wifi_manager_is_connected => true
  | Call.vTaskDelay _ => true
  | _ => false

/-- Calls that bring up the Discovery Advertiser or the Session Manager. -/
def isServiceStart : Call → Bool
  | Call.mdns_service_init => true
  | Call.mqtt_gateway_init => true
  | Call.mqtt_gateway_start => true
  | Call.mdns_init => true
  | Call.esp_mqtt_client_init _ => true
  | Call.esp_mqtt_client_start _ => true
  | _ => false

/-- A network that never connects, every call succeeding. -/
def never_connected : MainEnv := ⟨ESP_OK, ESP_OK, fun _ => false, ESP_OK, some 1, ESP_OK, 0⟩

/-! ## Reading a history -/

def Obs.isStop (o : Obs) : Bool :=
  match o.action with
  | Action.stop => true
  | _ => false

/-- A call of mqtt_gateway_start that returned ESP_OK. -/
def Obs.isStartOk (o : Obs) : Bool :=
  match o.action, o.ret with
  | Action.start _, some r => decide (r = ESP_OK)
  | _, _ => false

/-- Delivery of the MQTT event with the given id. -/
def Obs.isEvent (id : Int) (o : Obs) : Bool :=
  match o.action with
  | Action.event _ _ e => decide (e.event_id = id)
  | _ => false

/-- Over a history listed most recent first: mqtt_gateway_start has succeeded
with no later mqtt_gateway_stop. -/
def startedNoLaterStop : List Obs → Bool
  | [] => false
  | o :: older =>
    if o.isStop then false
    else if o.isStartOk then true
    else startedNoLaterStop older

/-- Over a history listed most recent first: the most recent connect or
disconnect event delivered since the last mqtt_gateway_stop (since process
start when there was none) was MQTT_EVENT_CONNECTED. -/
def connectedSinceStop : List Obs → Bool
  | [] => false
  | o :: older =>
    if o.isStop then false
    else if o.isEvent MQTT_EVENT_CONNECTED then true
    else if o.isEvent MQTT_EVENT_DISCONNECTED then false
    else connectedSinceStop older

/-- Over a history listed most recent first: some mqtt_gateway_start has
succeeded with no later mqtt_gateway_stop, and the most recent connect or
disconnect event delivered since that start was MQTT_EVENT_CONNECTED. -/
def connectedSinceStart : List Obs → Bool
  | [] => false
  | o :: older =>
    if o.isStop then false
    else if o.isEvent MQTT_EVENT_CONNECTED then startedNoLaterStop older
    else if o.isEvent MQTT_EVENT_DISCONNECTED then false
    else connectedSinceStart older

/-- Every MQTT_EVENT_CONNECTED of the run is delivered while the link is
connected. -/
def connectedOnlyWhileLinked (w : World) : List Action → Bool
  | [] => true
  | a :: rest =>
    (match a with
     | Action.event _ _ e =>
       if e.event_id = MQTT_EVENT_CONNECTED then w.net.wifi_connected else true
     | _ => true) &&
    connectedOnlyWhileLinked (step w a).world rest

/-- Over a list of steps listed most recent first: the session has observed
the latest link drop, that is, the most recent link-down notification (if
any) was followed by a link-up notification, an MQTT_EVENT_DISCONNECTED or a
mqtt_gateway_stop. -/
def dropObserved : List Action → Bool
  | [] => true
  | a :: older =>
    match a with
    | Action.link_down => false
    | Action.link_up _ _ _ => true
    | Action.stop => true
    | Action.event _ _ e =>
      if e.event_id = MQTT_EVENT_DISCONNECTED then true else dropObserved older
    | _ => dropObserved older

/-! ## Well-formed dotted addresses -/

/-- The pieces of a string between its dots. -/
def splitOnDot : List Char → List (List Char)
  | [] => [[]]
  | c :: cs =>
    if c = '.' then [] :: splitOnDot cs
    else
      match splitOnDot cs with
      | [] => [[c]]
      | p :: ps => (c :: p) :: ps

/-- The value of a string of decimal digits. -/
def decimalValue (p : List Char) : Nat :=
  p.foldl (fun v c => 10 * v + (c.toNat - 48)) 0

/-- One to three decimal digits, no leading zero, value at most 255. -/
def isOctet (p : List Char) : Bool :=
  decide (1 ≤ p.length) && decide (p.length ≤ 3) && p.all Char.isDigit &&
  (decide (p.length = 1) || p.head? != some '0') && decide (decimalValue p ≤ 255)

/-- A well-formed dotted address: four octets separated by three dots. -/
def isDottedQuad (s : List Char) : Bool :=
  match splitOnDot s with
  | [a, b, c, d] => isOctet a && isOctet b && isOctet c && isOctet d
  | _ => false

/-! ## The reply payload as the interface describes it -/

/-- The literals true and false. -/
def json_bool (b : Bool) : List Char := (toString b).toList

/-- The reply of the interface description: the four fields wifi_connected,
mqtt_running, ip and clients in this order, no whitespace, the count in
decimal. -/
def reply_payload (s : gateway_status_t) : List Char :=
  "\x7b\"wifi_connected\":".toList ++ json_bool s.wifi_connected ++
  ",\"mqtt_running\":".toList ++ json_bool s.mqtt_running ++
  ",\"ip\":\"".toList ++ s.ip_address ++
  "\",\"clients\":".toList ++ (toString s.mqtt_client_count).toList ++ "\x7d".toList

/-! ## Supporting lemmas: status query dispatch -/

/-- Through a non-null pointer gateway_get_status succeeds and writes the
snapshot, whatever the destination held before. -/
theorem gateway_get_status_some (net : NetEnv) (g : Globals) (old : gateway_status_t) :
    gateway_get_status net g (some old) = (ESP_OK, some (snapshot ⟨g, net⟩)) := by
  simp [gateway_get_status, snapshot]

/-- The publish calls of the MQTT_EVENT_DATA branch: one reply when strncmp
over topic_len bytes reports equality, none otherwise. -/
theorem handler_data_publishes (net : NetEnv) (ret : SubscribeRet) (g : Globals) (base : String)
    (e : esp_mqtt_event_t) (h : e.event_id = MQTT_EVENT_DATA) :
    (mqtt_event_handler net ret g base e).2.filter isPublish =
      if strncmp e.topic status_topic e.topic.length = 0 then
        [Call.esp_mqtt_client_publish e.client "/gateway/status/response"
          (status_msg (snapshot ⟨g, net⟩)) 0 0 0]
      else [] := by
  have hs : "/gateway/status".toList = status_topic := rfl
  unfold mqtt_event_handler
  rw [gateway_get_status_some, hs]
  simp only [h]
  split_ifs <;> simp_all [isPublish, MQTT_EVENT_DATA, MQTT_EVENT_CONNECTED,
    MQTT_EVENT_DISCONNECTED, MQTT_EVENT_SUBSCRIBED, MQTT_EVENT_UNSUBSCRIBED, MQTT_EVENT_PUBLISHED]

theorem char_sub_eq_zero (c d : Char) : (c.toNat : Int) - (d.toNat : Int) = 0 ↔ c = d := by
  constructor
  · intro h
    have : c.toNat = d.toNat := by omega
    exact Char.ext (UInt32.ext (by simpa [Char.toNat, UInt32.toNat] using this))
  · rintro rfl; omega

/-- When the second string holds no NUL, strncmp over the length of the first
reports equality exactly when the first is an initial segment of the second,
or starts with the second followed by a NUL. -/
theorem strncmp_eq_zero_iff (t lit : List Char) (hl : NUL ∉ lit) :
    strncmp t lit t.length = 0 ↔ t <+: lit ∨ (lit ++ [NUL]) <+: t := by
  induction t generalizing lit with
  | nil => simp [strncmp]
  | cons c t ih =>
    cases lit with
    | nil =>
      by_cases hc : c = NUL
      · simp [strncmp, hc]
      · have : ¬ NUL = c := fun h => hc h.symm
        simp [strncmp, hc, char_sub_eq_zero, this]
    | cons d lit =>
      have hd : d ≠ NUL := fun h => hl (by simp [h])
      have hl2 : NUL ∉ lit := fun h => hl (by simp [h])
      by_cases hcd : c = d
      · subst hcd
        simp [strncmp, hd, ih lit hl2, List.cons_prefix_cons]
      · have hdc : ¬ d = c := fun h => hcd h.symm
        simp [strncmp, hcd, hdc, char_sub_eq_zero, List.cons_prefix_cons]

/-- The topics on which the handler replies: every initial segment of the
query topic (the empty topic included), and the query topic followed by a NUL
and anything. -/
theorem handler_replies_iff (net : NetEnv) (ret : SubscribeRet) (g : Globals) (base : String)
    (e : esp_mqtt_event_t) (h : e.event_id = MQTT_EVENT_DATA) :
    (mqtt_event_handler net ret g base e).2.filter isPublish ≠ [] ↔
      e.topic <+: status_topic ∨ (status_topic ++ [NUL]) <+: e.topic := by
  rw [handler_data_publishes net ret g base e h,
    ← strncmp_eq_zero_iff e.topic status_topic (by decide)]
  split_ifs with hc <;> simp [hc]

/-! ## Claims on the event handler -/

/-- C2 (the code departs from the claim): a Data event whose topic is empty, or
is the proper initial segment /gateway of the query topic, makes the handler
publish one status reply to /gateway/status/response, where an exact match
would publish nothing. -/
theorem status_reply_on_empty_and_partial_topic (net : NetEnv) (ret : SubscribeRet)
    (g : Globals) (base : String) (client : esp_mqtt_client_handle_t) (data : List Char) :
    (mqtt_event_handler net ret g base (data_event client [] data)).2.filter isPublish =
      [Call.esp_mqtt_client_publish client "/gateway/status/response"
        (status_msg (snapshot ⟨g, net⟩)) 0 0 0] ∧
    (mqtt_event_handler net ret g base
        (data_event client "/gateway".toList data)).2.filter isPublish =
      [Call.esp_mqtt_client_publish client "/gateway/status/response"
        (status_msg (snapshot ⟨g, net⟩)) 0 0 0] := by
  have h0 : strncmp [] status_topic 0 = 0 := by decide
  have h8 : strncmp "/gateway".toList status_topic 8 = 0 := by decide
  constructor
  · rw [handler_data_publishes _ _ _ _ _ rfl]
    exact if_pos h0
  · rw [handler_data_publishes _ _ _ _ _ rfl]
    exact if_pos h8

/-- C3 as stated fails: after init and start, with no Connected event yet
(mqtt_connected false), a status query still makes one publish call. -/
theorem publish_attempt_while_not_connected :
    (after World.boot [Action.init (some 1), Action.start ESP_OK]).g.mqtt_connected = false ∧
    ((mqtt_event_handler World.boot.net ⟨1, 2⟩
        (after World.boot [Action.init (some 1), Action.start ESP_OK]).g "MQTT_EVENTS"
        (data_event (some 1) status_topic [])).2.filter isPublish).length = 1 := by
  constructor
  · decide
  · rw [handler_data_publishes _ _ _ _ _ rfl, if_pos (by decide)]
    rfl

/-- C3 (amended): handling one status query (a Data event on /gateway/status)
makes exactly one publish call, to the reply topic with the formatted
snapshot at QoS 0, whether or not the session is connected. -/
theorem status_query_publishes_once (net : NetEnv) (ret : SubscribeRet) (g : Globals)
    (base : String) (e : esp_mqtt_event_t) (h : e.event_id = MQTT_EVENT_DATA)
    (ht : e.topic = status_topic) :
    (mqtt_event_handler net ret g base e).2.filter isPublish =
      [Call.esp_mqtt_client_publish e.client "/gateway/status/response"
        (status_msg (snapshot ⟨g, net⟩)) 0 0 0] := by
  rw [handler_data_publishes net ret g base e h, ht, if_pos (by decide)]

/-- The amended C3 at two concrete states: not connected and connected. -/
theorem status_query_publishes_once_witness :
    ((mqtt_event_handler World.boot.net ⟨1, 2⟩ Globals.boot "MQTT_EVENTS"
        (data_event (some 1) status_topic "?".toList)).2.filter isPublish).length = 1 ∧
    (mqtt_event_handler World.boot.net ⟨1, 2⟩ ⟨some 1, true, true, 0, false⟩ "MQTT_EVENTS"
        (data_event (some 1) status_topic "?".toList)).2.filter isPublish =
      [Call.esp_mqtt_client_publish (some 1) "/gateway/status/response"
        (status_msg (snapshot ⟨⟨some 1, true, true, 0, false⟩, World.boot.net⟩)) 0 0 0] :=
  ⟨by rw [status_query_publishes_once _ _ _ _ _ rfl rfl]; rfl,
   status_query_publishes_once _ _ _ _ _ rfl rfl⟩

/-- C7: whatever the state before and whatever message ids the two subscribe
calls return, handling MQTT_EVENT_CONNECTED sets mqtt_connected and makes
exactly two subscribe calls, /test/topic then /gateway/status, each at
QoS 0. -/
theorem connected_subscribes_fixed_set (net : NetEnv) (ret : SubscribeRet) (g : Globals)
    (base : String) (e : esp_mqtt_event_t) (h : e.event_id = MQTT_EVENT_CONNECTED) :
    (mqtt_event_handler net ret g base e).1.mqtt_connected = true ∧
    (mqtt_event_handler net ret g base e).2.filter isSubscribe =
      [Call.esp_mqtt_client_subscribe e.client "/test/topic" 0,
       Call.esp_mqtt_client_subscribe e.client "/gateway/status" 0] := by
  simp [mqtt_event_handler, h, isSubscribe]

/-- C7 at a concrete event whose two subscribe calls both return -1. -/
theorem connected_subscribes_fixed_set_witness :
    (mqtt_event_handler World.boot.net ⟨-1, -1⟩ Globals.boot "MQTT_EVENTS"
        (plain_event MQTT_EVENT_CONNECTED (some 7))).1.mqtt_connected = true ∧
    (mqtt_event_handler World.boot.net ⟨-1, -1⟩ Globals.boot "MQTT_EVENTS"
        (plain_event MQTT_EVENT_CONNECTED (some 7))).2.filter isSubscribe =
      [Call.esp_mqtt_client_subscribe (some 7) "/test/topic" 0,
       Call.esp_mqtt_client_subscribe (some 7) "/gateway/status" 0] :=
  connected_subscribes_fixed_set _ _ _ _ _ rfl

/-- C9: from every state mqtt_gateway_stop returns ESP_OK and leaves the
client handle null and both flags false, so mqtt_gateway_is_running is false;
a second call again returns ESP_OK, leaves the state as the first call left
it, and makes no stop or destroy call on the client. -/
theorem stop_idempotent (g : Globals) :
    (mqtt_gateway_stop g).1 = ESP_OK ∧
    (mqtt_gateway_stop g).2.1.mqtt_client = none ∧
    (mqtt_gateway_stop g).2.1.mqtt_running = false ∧
    (mqtt_gateway_stop g).2.1.mqtt_connected = false ∧
    mqtt_gateway_is_running (mqtt_gateway_stop g).2.1 = false ∧
    (mqtt_gateway_stop (mqtt_gateway_stop g).2.1).1 = ESP_OK ∧
    (mqtt_gateway_stop (mqtt_gateway_stop g).2.1).2.1 = (mqtt_gateway_stop g).2.1 ∧
    (mqtt_gateway_stop (mqtt_gateway_stop g).2.1).2.2.filter isTeardown = [] := by
  cases hc : g.mqtt_client <;>
    simp [mqtt_gateway_stop, hc, mqtt_gateway_is_running, isTeardown]

/-! ## Supporting lemmas: formatting -/

theorem fmt_d_eq_toString (i : Int) : fmt_d i = (toString i).toList := by
  cases i <;> rfl

/-- The expansion of the status format, piece by piece. -/
theorem vformat_status (a b ip : List Char) (c : Int) :
    vformat status_fmt.toList
      [PrintfArg.str a, PrintfArg.str b, PrintfArg.str ip, PrintfArg.int c] =
    "\x7b\"wifi_connected\":".toList ++ a ++ ",\"mqtt_running\":".toList ++ b ++
    ",\"ip\":\"".toList ++ ip ++ "\",\"clients\":".toList ++ fmt_d c ++ "\x7d".toList := by
  simp only [List.append_assoc]
  rfl

theorem toDigits_length_le (n e : Nat) (he : 0 < e) (h : n < 10 ^ e) :
    (Nat.toDigits 10 n).length ≤ e :=
  Nat.toDigitsCore_length 10 (by decide) (n + 1) n e h he

/-- A 32-bit signed integer prints in at most 11 characters. -/
theorem fmt_d_length (i : Int) (hlo : -(2147483648 : Int) ≤ i) (hhi : i ≤ 2147483647) :
    (fmt_d i).length ≤ 11 := by
  cases i with
  | ofNat n =>
    have : n < 10 ^ 10 := by
      have : (n : Int) ≤ 2147483647 := hhi
      omega
    have := toDigits_length_le n 10 (by decide) this
    simp only [fmt_d]; omega
  | negSucc n =>
    have : n + 1 < 10 ^ 10 := by
      have h1 : -(2147483648 : Int) ≤ Int.negSucc n := hlo
      rw [Int.negSucc_eq] at h1
      omega
    have := toDigits_length_le (n + 1) 10 (by decide) this
    simp only [fmt_d, List.length_cons]; omega

/-- The full expansion of the status format is at most 90 characters long for
a representable snapshot. -/
theorem vformat_status_length (s : gateway_status_t) (h : s.representable) :
    (vformat status_fmt.toList (status_args s)).length ≤ 90 := by
  obtain ⟨hip, hlo, hhi⟩ := h
  have hd := fmt_d_length s.mqtt_client_count hlo hhi
  have hw : (if s.wifi_connected then "true".toList else "false".toList).length ≤ 5 := by
    split <;> decide
  have hm : (if s.mqtt_running then "true".toList else "false".toList).length ≤ 5 := by
    split <;> decide
  rw [status_args, vformat_status]
  simp only [List.length_append]
  have e1 : "\x7b\"wifi_connected\":".toList.length = 18 := rfl
  have e2 : ",\"mqtt_running\":".toList.length = 16 := rfl
  have e3 : ",\"ip\":\"".toList.length = 7 := rfl
  have e4 : "\",\"clients\":".toList.length = 12 := rfl
  have e5 : "\x7d".toList.length = 1 := rfl
  omega

/-! ## Claims on the reply payload -/

/-- C4: for every snapshot the C structure can hold, the payload the status
responder builds is the compact object with the fields wifi_connected,
mqtt_running, ip and clients (booleans as true or false, the address
verbatim, the count in decimal), and mdns_running has no influence on it. -/
theorem status_msg_eq_reply_payload (s : gateway_status_t) (h : s.representable) :
    status_msg s = reply_payload s ∧
    ∀ m : Bool, status_msg { s with mdns_running := m } = status_msg s := by
  have hlen := vformat_status_length s h
  constructor
  · unfold status_msg snprintf
    rw [List.take_of_length_le (by omega), status_args, vformat_status, fmt_d_eq_toString]
    unfold reply_payload json_bool
    cases s.wifi_connected <;> cases s.mqtt_running <;> rfl
  · intro m
    rfl

/-- C4 at the snapshot of the specification: connected, running, address
1.2.3.4, no clients. -/
theorem status_msg_eq_reply_payload_witness :
    (⟨true, true, false, 0, "1.2.3.4".toList⟩ : gateway_status_t).representable ∧
    status_msg ⟨true, true, false, 0, "1.2.3.4".toList⟩ =
      "\x7b\"wifi_connected\":true,\"mqtt_running\":true,\"ip\":\"1.2.3.4\",\"clients\":0\x7d".toList :=
  ⟨by decide,
   (status_msg_eq_reply_payload ⟨true, true, false, 0, "1.2.3.4".toList⟩ (by decide)).1.trans
     (by decide)⟩

/-- C10: for every snapshot with at most 15 address characters and a 32-bit
signed count, the formatted reply is at most 90 characters long, so it fits
the 256-byte buffer and snprintf stores it whole. -/
theorem status_msg_never_truncated (s : gateway_status_t) (h : s.representable) :
    (vformat status_fmt.toList (status_args s)).length ≤ 90 ∧
    (vformat status_fmt.toList (status_args s)).length < 256 ∧
    status_msg s = vformat status_fmt.toList (status_args s) := by
  have hlen := vformat_status_length s h
  refine ⟨hlen, by omega, ?_⟩
  unfold status_msg snprintf
  exact List.take_of_length_le (by omega)

/-- C10 at the longest snapshot: both flags false, a 15-character address and
the most negative count give exactly 90 characters. -/
theorem status_msg_never_truncated_witness :
    (⟨false, false, true, -2147483648, "255.255.255.255".toList⟩ :
      gateway_status_t).representable ∧
    (status_msg ⟨false, false, true, -2147483648, "255.255.255.255".toList⟩).length = 90 :=
  ⟨by decide,
   by
    rw [(status_msg_never_truncated ⟨false, false, true, -2147483648,
      "255.255.255.255".toList⟩ (by decide)).2.2]
    decide⟩

/-! ## Supporting lemmas: dotted addresses -/

set_option maxRecDepth 100000 in
/-- Every octet prints as a well-formed octet without a dot. -/
theorem toDigits_octet : ∀ n : Fin 256,
    isOctet (Nat.toDigits 10 n.val) = true ∧ '.' ∉ Nat.toDigits 10 n.val ∧
    (Nat.toDigits 10 n.val).length ≤ 3 := by
  decide

theorem splitOnDot_of_not_mem (p : List Char) (h : '.' ∉ p) : splitOnDot p = [p] := by
  induction p with
  | nil => rfl
  | cons c p ih =>
    have hc : c ≠ '.' := fun e => h (by simp [e])
    have hp : '.' ∉ p := fun e => h (by simp [e])
    simp [splitOnDot, hc, ih hp]

theorem splitOnDot_append (p rest : List Char) (h : '.' ∉ p) :
    splitOnDot (p ++ '.' :: rest) = p :: splitOnDot rest := by
  induction p with
  | nil => simp [splitOnDot]
  | cons c p ih =>
    have hc : c ≠ '.' := fun e => h (by simp [e])
    have hp : '.' ∉ p := fun e => h (by simp [e])
    simp [splitOnDot, hc, ih hp]

theorem ip4_addr_get_byte_lt (addr i : Nat) : ip4_addr_get_byte addr i < 256 :=
  Nat.mod_lt _ (by decide)

theorem esp_ip4addr_ntoa_wellformed (addr : Nat) :
    isDottedQuad (esp_ip4addr_ntoa addr) = true ∧ (esp_ip4addr_ntoa addr).length ≤ 15 := by
  have h0 := toDigits_octet ⟨_, ip4_addr_get_byte_lt addr 0⟩
  have h1 := toDigits_octet ⟨_, ip4_addr_get_byte_lt addr 1⟩
  have h2 := toDigits_octet ⟨_, ip4_addr_get_byte_lt addr 2⟩
  have h3 := toDigits_octet ⟨_, ip4_addr_get_byte_lt addr 3⟩
  simp only at h0 h1 h2 h3
  constructor
  · unfold isDottedQuad esp_ip4addr_ntoa
    rw [splitOnDot_append _ _ h0.2.1, splitOnDot_append _ _ h1.2.1, splitOnDot_append _ _ h2.2.1,
      splitOnDot_of_not_mem _ h3.2.1]
    simp [h0.1, h1.1, h2.1, h3.1]
  · unfold esp_ip4addr_ntoa
    simp only [List.length_append, List.length_cons]
    omega

/-! ## Supporting lemmas: runs and histories -/

theorem after_concat (w : World) (tr : List Action) (a : Action) :
    after w (tr ++ [a]) = (step (after w tr) a).world := by
  induction tr generalizing w with
  | nil => rfl
  | cons b tr ih => simp [after, ih]

theorem history_concat (w : World) (tr : List Action) (a : Action) :
    history w (tr ++ [a]) = history w tr ++ [⟨a, (step (after w tr) a).ret⟩] := by
  induction tr generalizing w with
  | nil => rfl
  | cons b tr ih => simp [history, after, ih]

theorem connectedOnlyWhileLinked_concat (w : World) (tr : List Action) (a : Action) :
    connectedOnlyWhileLinked w (tr ++ [a]) =
      (connectedOnlyWhileLinked w tr && connectedOnlyWhileLinked (after w tr) [a]) := by
  induction tr generalizing w with
  | nil => simp [connectedOnlyWhileLinked, after]
  | cons b tr ih => simp [connectedOnlyWhileLinked, after, ih, Bool.and_assoc]

/-- The handler changes no global but mqtt_connected, and that one only on
the Connected and Disconnected events. -/
theorem handler_globals (net : NetEnv) (ret : SubscribeRet) (g : Globals) (base : String)
    (e : esp_mqtt_event_t) :
    (mqtt_event_handler net ret g base e).1 =
      if e.event_id = MQTT_EVENT_CONNECTED then { g with mqtt_connected := true }
      else if e.event_id = MQTT_EVENT_DISCONNECTED then { g with mqtt_connected := false }
      else g := by
  unfold mqtt_event_handler
  rw [gateway_get_status_some]
  simp only
  split_ifs <;> rfl

theorem start_globals (g : Globals) (r : esp_err_t) :
    (mqtt_gateway_start g r).2.1 =
      if (mqtt_gateway_start g r).1 = ESP_OK then { g with mqtt_running := true } else g := by
  unfold mqtt_gateway_start
  simp only
  split_ifs <;> simp_all [ESP_OK, ESP_FAIL]

theorem history_reverse_concat (w : World) (tr : List Action) (a : Action) :
    (history w (tr ++ [a])).reverse =
      ⟨a, (step (after w tr) a).ret⟩ :: (history w tr).reverse := by
  simp [history_concat]

theorem mqtt_running_eq_startedNoLaterStop (tr : List Action) :
    (after World.boot tr).g.mqtt_running = startedNoLaterStop (history World.boot tr).reverse := by
  induction tr using List.reverseRecOn with
  | nil => rfl
  | append_singleton tr a ih =>
    rw [after_concat, history_reverse_concat]
    simp only [startedNoLaterStop]
    rw [← ih]
    cases a with
    | start r =>
      simp only [step, Obs.isStop, Obs.isStartOk, start_globals]
      by_cases hr : (mqtt_gateway_start (after World.boot tr).g r).1 = ESP_OK <;> simp [hr]
    | stop => simp [step, Obs.isStop, mqtt_gateway_stop]
    | init h =>
      simp only [step, Obs.isStop, Obs.isStartOk, mqtt_gateway_init]
      split_ifs <;> first | contradiction | rfl
    | mdns_start r =>
      simp only [step, Obs.isStop, Obs.isStartOk, mdns_service_init]
      split_ifs <;> first | contradiction | rfl
    | mdns_stop =>
      simp only [step, Obs.isStop, Obs.isStartOk, mdns_service_stop]
      split_ifs <;> first | contradiction | rfl
    | event ret base e =>
      simp only [step, Obs.isStop, Obs.isStartOk, handler_globals]
      split_ifs <;> first | contradiction | rfl
    | link_up n r ip => simp [step, Obs.isStop, Obs.isStartOk]
    | link_down => simp [step, Obs.isStop, Obs.isStartOk]

theorem mqtt_connected_eq_connectedSinceStop (tr : List Action) :
    (after World.boot tr).g.mqtt_connected = connectedSinceStop (history World.boot tr).reverse := by
  induction tr using List.reverseRecOn with
  | nil => rfl
  | append_singleton tr a ih =>
    rw [after_concat, history_reverse_concat]
    simp only [connectedSinceStop]
    rw [← ih]
    cases a with
    | start r =>
      simp only [step, Obs.isStop, Obs.isEvent, start_globals]
      split_ifs <;> first | contradiction | rfl
    | stop => simp [step, Obs.isStop, mqtt_gateway_stop]
    | init h =>
      simp only [step, Obs.isStop, Obs.isEvent, mqtt_gateway_init]
      split_ifs <;> first | contradiction | rfl
    | mdns_start r =>
      simp only [step, Obs.isStop, Obs.isEvent, mdns_service_init]
      split_ifs <;> first | contradiction | rfl
    | mdns_stop =>
      simp only [step, Obs.isStop, Obs.isEvent, mdns_service_stop]
      split_ifs <;> first | contradiction | rfl
    | event ret base e =>
      simp only [step, Obs.isStop, Obs.isEvent, handler_globals]
      by_cases h1 : e.event_id = MQTT_EVENT_CONNECTED
      · simp [h1]
      · by_cases h2 : e.event_id = MQTT_EVENT_DISCONNECTED
        · simp [h2, MQTT_EVENT_DISCONNECTED, MQTT_EVENT_CONNECTED]
        · simp [h1, h2]
    | link_up n r ip => simp [step, Obs.isStop, Obs.isEvent]
    | link_down => simp [step, Obs.isStop, Obs.isEvent]

/-! ## Claims on the snapshot address -/

/-- C8 as stated fails: with the link connected but no interface handle for
WIFI_STA_DEF, gateway_get_status leaves ip_address empty, which is no dotted
address. -/
theorem connected_snapshot_without_address :
    (gateway_get_status ⟨true, none, ESP_OK, 83886090⟩ Globals.boot
      (some gateway_status_t.zero)).1 = ESP_OK ∧
    (snapshot ⟨Globals.boot, ⟨true, none, ESP_OK, 83886090⟩⟩).wifi_connected = true ∧
    (snapshot ⟨Globals.boot, ⟨true, none, ESP_OK, 83886090⟩⟩).ip_address = [] ∧
    isDottedQuad (snapshot ⟨Globals.boot, ⟨true, none, ESP_OK, 83886090⟩⟩).ip_address = false := by
  decide

/-- C8 (amended): through a non-null pointer gateway_get_status returns ESP_OK
and writes the snapshot; its ip_address is the dotted rendering of the
interface address when the link is connected, the interface handle is found
and esp_netif_get_ip_info succeeds, and the empty string in every other case
(link not connected, or a lookup failed); the dotted rendering is always a
well-formed dotted address of at most 15 characters, and address 10.0.0.5
gives the string 10.0.0.5. -/
theorem gateway_get_status_address (net : NetEnv) (g : Globals) (old : gateway_status_t) :
    (gateway_get_status net g (some old)).1 = ESP_OK ∧
    (gateway_get_status net g (some old)).2 = some (snapshot ⟨g, net⟩) ∧
    (snapshot ⟨g, net⟩).wifi_connected = net.wifi_connected ∧
    (snapshot ⟨g, net⟩).ip_address =
      (if net.wifi_connected = true ∧ net.netif ≠ none ∧ net.ip_info_ret = ESP_OK
       then esp_ip4addr_ntoa net.ip else []) ∧
    isDottedQuad (esp_ip4addr_ntoa net.ip) = true ∧
    (esp_ip4addr_ntoa net.ip).length ≤ 15 ∧
    (snapshot ⟨g, ⟨true, some 0, ESP_OK, 83886090⟩⟩).ip_address = "10.0.0.5".toList := by
  refine ⟨by rw [gateway_get_status_some], by rw [gateway_get_status_some], ?_, ?_,
    (esp_ip4addr_ntoa_wellformed net.ip).1, (esp_ip4addr_ntoa_wellformed net.ip).2, ?_⟩
  · simp [snapshot, gateway_get_status]
    split <;> try split
    all_goals first | rfl | (split <;> rfl)
  · simp only [snapshot, gateway_get_status]
    cases hw : net.wifi_connected <;> cases hn : net.netif <;>
      by_cases hr : net.ip_info_ret = ESP_OK <;>
      simp [hr, gateway_status_t.zero]
  · have h : esp_ip4addr_ntoa 83886090 = "10.0.0.5".toList := by decide
    simp [snapshot, gateway_get_status, h]

/-! ## Claims on the session flags -/

/-- C5 as stated fails: a Connected event delivered after init and before
start leaves mqtt_connected set, so after the start succeeds
mqtt_gateway_is_running is true although no connect event was delivered since
that start. -/
theorem running_without_connect_since_start :
    mqtt_gateway_is_running
      (after World.boot
        [Action.init (some 1),
         Action.event ⟨1, 2⟩ "MQTT_EVENTS" (plain_event MQTT_EVENT_CONNECTED (some 1)),
         Action.start ESP_OK]).g = true ∧
    connectedSinceStart
      (history World.boot
        [Action.init (some 1),
         Action.event ⟨1, 2⟩ "MQTT_EVENTS" (plain_event MQTT_EVENT_CONNECTED (some 1)),
         Action.start ESP_OK]).reverse = false := by
  decide

/-- C5 (amended): after every sequence of steps from process start,
mqtt_gateway_is_running is true exactly when mqtt_gateway_start has succeeded
with no later mqtt_gateway_stop and the most recent connect or disconnect
event delivered since the last mqtt_gateway_stop (since process start when
there was none) was MQTT_EVENT_CONNECTED. -/
theorem is_running_iff_started_and_connected (tr : List Action) :
    mqtt_gateway_is_running (after World.boot tr).g = true ↔
      startedNoLaterStop (history World.boot tr).reverse = true ∧
      connectedSinceStop (history World.boot tr).reverse = true := by
  rw [← mqtt_running_eq_startedNoLaterStop, ← mqtt_connected_eq_connectedSinceStop]
  simp [mqtt_gateway_is_running]

/-! ## Claims on the snapshot invariant -/

/-- While every Connected event is delivered with the link up, mqtt_connected
can only outlive the link between a link-down notification and the session
observing it. -/
theorem connected_linked_or_drop_pending (tr : List Action)
    (h : connectedOnlyWhileLinked World.boot tr = true)
    (hc : (after World.boot tr).g.mqtt_connected = true) :
    (after World.boot tr).net.wifi_connected = true ∨ dropObserved tr.reverse = false := by
  induction tr using List.reverseRecOn with
  | nil => exact absurd hc (by decide)
  | append_singleton tr a ih =>
    rw [connectedOnlyWhileLinked_concat, Bool.and_eq_true] at h
    obtain ⟨htr, ha⟩ := h
    rw [after_concat] at hc ⊢
    rw [List.reverse_append, List.reverse_singleton, List.singleton_append]
    cases a with
    | link_up n r ip => left; rfl
    | link_down => right; rfl
    | stop => exact absurd hc (by simp [step, mqtt_gateway_stop])
    | init hd =>
      have hg : (step (after World.boot tr) (Action.init hd)).world.g.mqtt_connected =
          (after World.boot tr).g.mqtt_connected := by
        simp only [step, mqtt_gateway_init]; split_ifs <;> rfl
      rw [hg] at hc
      exact ih htr hc
    | start r =>
      have hg : (step (after World.boot tr) (Action.start r)).world.g.mqtt_connected =
          (after World.boot tr).g.mqtt_connected := by
        simp only [step, start_globals]; split_ifs <;> rfl
      rw [hg] at hc
      exact ih htr hc
    | mdns_start r =>
      have hg : (step (after World.boot tr) (Action.mdns_start r)).world.g.mqtt_connected =
          (after World.boot tr).g.mqtt_connected := by
        simp only [step, mdns_service_init]; split_ifs <;> rfl
      rw [hg] at hc
      exact ih htr hc
    | mdns_stop =>
      have hg : (step (after World.boot tr) Action.mdns_stop).world.g.mqtt_connected =
          (after World.boot tr).g.mqtt_connected := by
        simp only [step, mdns_service_stop]; split_ifs <;> rfl
      rw [hg] at hc
      exact ih htr hc
    | event ret base e =>
      simp only [step, handler_globals] at hc ⊢
      simp only [connectedOnlyWhileLinked, step, Bool.and_true] at ha
      by_cases h1 : e.event_id = MQTT_EVENT_CONNECTED
      · left; simpa [h1] using ha
      · by_cases h2 : e.event_id = MQTT_EVENT_DISCONNECTED
        · simp [h2, MQTT_EVENT_DISCONNECTED, MQTT_EVENT_CONNECTED] at hc
        · simp only [h1, h2, if_false] at hc
          simp only [dropObserved, h2, if_false]
          exact ih htr hc

/-- C1 as stated fails: link up, init, start, Connected event, then a
link-down notification: until the session is told, the snapshot reports
mqtt_running true with wifi_connected false. -/
theorem snapshot_running_while_link_down :
    (snapshot (after World.boot
      [Action.link_up (some 0) ESP_OK 83886090,
       Action.init (some 1),
       Action.start ESP_OK,
       Action.event ⟨1, 2⟩ "MQTT_EVENTS" (plain_event MQTT_EVENT_CONNECTED (some 1)),
       Action.link_down])).mqtt_running = true ∧
    (snapshot (after World.boot
      [Action.link_up (some 0) ESP_OK 83886090,
       Action.init (some 1),
       Action.start ESP_OK,
       Action.event ⟨1, 2⟩ "MQTT_EVENTS" (plain_event MQTT_EVENT_CONNECTED (some 1)),
       Action.link_down])).wifi_connected = false := by
  decide

/-- The two flags of the snapshot: mqtt_running is mqtt_gateway_is_running,
wifi_connected is the answer of the link. -/
theorem snapshot_flags (w : World) :
    (snapshot w).mqtt_running = mqtt_gateway_is_running w.g ∧
    (snapshot w).wifi_connected = w.net.wifi_connected := by
  constructor
  · simp only [snapshot, gateway_get_status]
    split <;> try split
    all_goals first | rfl | (split <;> rfl)
  · simp only [snapshot, gateway_get_status]
    split <;> try split
    all_goals first | rfl | (split <;> rfl)

/-- C1 (amended): in every state reached from process start by steps in
which each MQTT_EVENT_CONNECTED is delivered while the link is up, and in
which the session has observed the latest link drop (the most recent
link-down notification, if any, was followed by a link-up notification, an
MQTT_EVENT_DISCONNECTED or a mqtt_gateway_stop), the snapshot has mqtt_running
true only if wifi_connected is true. -/
theorem running_implies_linked_once_drop_observed (tr : List Action)
    (h1 : connectedOnlyWhileLinked World.boot tr = true)
    (h2 : dropObserved tr.reverse = true)
    (h3 : (snapshot (after World.boot tr)).mqtt_running = true) :
    (snapshot (after World.boot tr)).wifi_connected = true := by
  rw [(snapshot_flags _).1] at h3
  rw [(snapshot_flags _).2]
  have hc : (after World.boot tr).g.mqtt_connected = true := by
    simp only [mqtt_gateway_is_running, Bool.and_eq_true] at h3
    exact h3.2
  rcases connected_linked_or_drop_pending tr h1 hc with h | h
  · exact h
  · rw [h2] at h; exact absurd h (by decide)

/-- The amended C1 on the run link up, init, start, Connected event. -/
theorem running_implies_linked_once_drop_observed_witness :
    (snapshot (after World.boot
      [Action.link_up (some 0) ESP_OK 83886090,
       Action.init (some 1),
       Action.start ESP_OK,
       Action.event ⟨1, 2⟩ "MQTT_EVENTS" (plain_event MQTT_EVENT_CONNECTED (some 1))])).mqtt_running
      = true ∧
    (snapshot (after World.boot
      [Action.link_up (some 0) ESP_OK 83886090,
       Action.init (some 1),
       Action.start ESP_OK,
       Action.event ⟨1, 2⟩ "MQTT_EVENTS" (plain_event MQTT_EVENT_CONNECTED (some 1))])).wifi_connected
      = true :=
  ⟨by decide, running_implies_linked_once_drop_observed _ (by decide) (by decide) (by decide)⟩

/-! ## Claims on startup -/

/-- C6 as stated fails: when the link never connects app_main calls
wifi_manager_is_connected 22 times before it returns, not 20. -/
theorem never_connected_polls_22 :
    (app_main never_connected 0).map (fun r => (r.1, r.2.polls)) = some (Outcome.returned, 22) := by
  decide

theorem poll_never (env : MainEnv) (hnever : ∀ k, env.is_connected k = false) (st : MainState) :
    poll env st = (false, st.emit [Call.wifi_manager_is_connected]) := by
  simp [poll, hnever]

/-- The waiting loop on a link that never connects: from retry_count = 20 - n
it makes n more rounds of poll and delay, then one last poll, and ends with
retry_count = 20. -/
theorem wait_for_wifi_never (env : MainEnv) (hnever : ∀ k, env.is_connected k = false) :
    ∀ (n fuel : Nat) (rc : Int) (st : MainState), rc + n = 20 → n < fuel →
      ∃ st1, wait_for_wifi env fuel rc st = some (20, st1) ∧ st1.g = st.g ∧
        st1.calls.filter isPollOrDelay =
          st.calls.filter isPollOrDelay ++
            ((List.replicate n [Call.wifi_manager_is_connected, Call.vTaskDelay 1000]).flatten ++
              [Call.wifi_manager_is_connected]) ∧
        st1.calls.filter isServiceStart = st.calls.filter isServiceStart := by
  intro n
  induction n with
  | zero =>
    intro fuel rc st hrc hf
    obtain ⟨f, rfl⟩ : ∃ f, fuel = f + 1 := ⟨fuel - 1, by omega⟩
    have h20 : rc = 20 := by simpa using hrc
    subst h20
    refine ⟨st.emit [Call.wifi_manager_is_connected], ?_, rfl, ?_, ?_⟩
    · simp [wait_for_wifi, poll_never env hnever]
    · simp [MainState.emit, isPollOrDelay]
    · simp [MainState.emit, isServiceStart]
  | succ n ih =>
    intro fuel rc st hrc hf
    obtain ⟨f, rfl⟩ : ∃ f, fuel = f + 1 := ⟨fuel - 1, by omega⟩
    have hlt : rc < 20 := by push_cast at hrc; omega
    obtain ⟨st1, h1, hg, hpd, hss⟩ := ih f (rc + 1)
      ((st.emit [Call.wifi_manager_is_connected]).emit
        [Call.esp_log 'I' "Waiting for WiFi connection... (%d/20)" [PrintfArg.int (rc + 1)],
         Call.vTaskDelay 1000]) (by push_cast at hrc; omega) (by omega)
    refine ⟨st1, ?_, ?_, ?_, ?_⟩
    · simp only [wait_for_wifi, poll_never env hnever]
      simpa [hlt] using h1
    · rw [hg]; rfl
    · rw [hpd]
      simp [MainState.emit, isPollOrDelay, List.replicate_succ]
    · rw [hss]
      simp [MainState.emit, isServiceStart]

/-- C6 (amended): when wifi_manager_init and wifi_manager_start succeed and
wifi_manager_is_connected answers false on every call, app_main returns after
exactly 20 delays of 1000 ms, each preceded by one poll, followed by two more
polls (the loop condition once more and the final check), 22 polls in all,
and it never calls mdns_service_init, mqtt_gateway_init or
mqtt_gateway_start. -/
theorem never_connected_halts (env : MainEnv) (ticks : Nat)
    (hinit : env.wifi_init_ret = ESP_OK) (hstart : env.wifi_start_ret = ESP_OK)
    (hnever : ∀ k, env.is_connected k = false) :
    ∃ st, app_main env ticks = some (Outcome.returned, st) ∧
      st.calls.filter isPollOrDelay =
        (List.replicate 20 [Call.wifi_manager_is_connected, Call.vTaskDelay 1000]).flatten ++
          [Call.wifi_manager_is_connected, Call.wifi_manager_is_connected] ∧
      st.polls = 22 ∧
      st.calls.count (Call.vTaskDelay 1000) = 20 ∧
      st.calls.filter isServiceStart = [] := by
  obtain ⟨st3, h3, -, hpd, hss⟩ := wait_for_wifi_never env hnever 20 21 0
    ((MainState.emit ⟨Globals.boot, []⟩
      [Call.esp_log 'I' "ESP32-C6 MQTT Gateway starting..." [],
       Call.esp_log 'I' "Free heap: %d bytes" [PrintfArg.int env.free_heap],
       Call.esp_log 'I' "Initializing WiFi Manager..." [],
       Call.wifi_manager_init]).emit
      [Call.esp_log 'I' "Starting WiFi connection..." [], Call.wifi_manager_start])
    (by norm_num) (by norm_num)
  have hfilter : (st3.calls ++ [Call.wifi_manager_is_connected] ++
      [Call.esp_log 'E' "Failed to connect to WiFi after 20 seconds" []]).filter isPollOrDelay =
        (List.replicate 20 [Call.wifi_manager_is_connected, Call.vTaskDelay 1000]).flatten ++
          [Call.wifi_manager_is_connected, Call.wifi_manager_is_connected] := by
    rw [List.filter_append, List.filter_append, hpd]
    simp [MainState.emit, isPollOrDelay]
  refine ⟨(st3.emit [Call.wifi_manager_is_connected]).emit
      [Call.esp_log 'E' "Failed to connect to WiFi after 20 seconds" []], ?_, hfilter, ?_, ?_, ?_⟩
  · unfold app_main
    simp only [hinit, hstart, ne_eq, not_true_eq_false, if_false, h3, poll_never env hnever]
    rfl
  · have hc := List.count_filter (l := st3.calls ++ [Call.wifi_manager_is_connected] ++
      [Call.esp_log 'E' "Failed to connect to WiFi after 20 seconds" []])
      (p := isPollOrDelay) (a := Call.wifi_manager_is_connected) rfl
    rw [hfilter] at hc
    simp only [MainState.polls, MainState.emit]
    rw [← hc]
    decide
  · have hc := List.count_filter (l := st3.calls ++ [Call.wifi_manager_is_connected] ++
      [Call.esp_log 'E' "Failed to connect to WiFi after 20 seconds" []])
      (p := isPollOrDelay) (a := Call.vTaskDelay 1000) rfl
    rw [hfilter] at hc
    simp only [MainState.emit]
    rw [← hc]
    decide
  · simp only [MainState.emit]
    rw [List.filter_append, List.filter_append, hss]
    simp [MainState.emit, isServiceStart]

/-- The amended C6 on the network that never connects. -/
theorem never_connected_halts_witness :
    ∃ st, app_main never_connected 3 = some (Outcome.returned, st) ∧
      st.calls.filter isPollOrDelay =
        (List.replicate 20 [Call.wifi_manager_is_connected, Call.vTaskDelay 1000]).flatten ++
          [Call.wifi_manager_is_connected, Call.wifi_manager_is_connected] ∧
      st.polls = 22 ∧
      st.calls.count (Call.vTaskDelay 1000) = 20 ∧
      st.calls.filter isServiceStart = [] :=
  never_connected_halts never_connected 3 rfl rfl (fun _ => rfl)

end Gateway
